import Mathlib

/-!
A shallow embedding of the GeoVet core: the CDN/cloud classification engine
(`src/cdn.ts`), the two geo providers (`src/providers/local.ts`,
`src/providers/ipinfo.ts`) and the lookup orchestrator (`src/lookup.ts`,
`lookup`, `lookupBatch`, `parallelMap`).

External effects (DNS resolution, the HTTP fetch of the remote provider, the
on-disk GeoLite2 databases) are modelled as oracles packaged in an `Env`
record, so every operation of the core becomes a pure Lean function of its
arguments and of the environment.  The bounded worker pool of `parallelMap`
is modelled as a small-step transition system whose interleavings include
every schedule the JavaScript event loop can produce.
-/

set_option maxRecDepth 8000

namespace GeoVet

/-- The `type` union of `CdnInfo` in `cdn.ts`. -/
inductive CdnType
  | cdn
  | cloud
  | hosting
  | security
  deriving DecidableEq, Repr

/-- Structure `CdnInfo` from `cdn.ts`: the result of `detectCdn`. -/
structure CdnInfo where
  isCdn : Bool
  provider : Option String := none
  type : Option CdnType := none
  note : Option String := none
  deriving DecidableEq, Repr

/-- Chunk 0 of the `CDN_ASNS` table of `cdn.ts` (split only to keep list literals small). -/
def cdnAsnsChunk0 : List (Nat × String × CdnType) := [
  (13335, "Cloudflare", .cdn),
  (209242, "Cloudflare", .cdn),
  (20940, "Akamai", .cdn),
  (16625, "Akamai", .cdn),
  (32787, "Akamai", .cdn),
  (12222, "Akamai", .cdn),
  (17204, "Akamai", .cdn),
  (18680, "Akamai", .cdn),
  (18717, "Akamai", .cdn),
  (23454, "Akamai", .cdn),
  (23455, "Akamai", .cdn),
  (24319, "Akamai", .cdn),
  (26008, "Akamai", .cdn),
  (30675, "Akamai", .cdn),
  (31107, "Akamai", .cdn),
  (31108, "Akamai", .cdn),
  (31109, "Akamai", .cdn),
  (31110, "Akamai", .cdn),
  (33905, "Akamai", .cdn),
  (34164, "Akamai", .cdn)
]

/-- Chunk 1 of the `CDN_ASNS` table of `cdn.ts` (split only to keep list literals small). -/
def cdnAsnsChunk1 : List (Nat × String × CdnType) := [
  (35204, "Akamai", .cdn),
  (36183, "Akamai", .cdn),
  (39836, "Akamai", .cdn),
  (43639, "Akamai", .cdn),
  (55409, "Akamai", .cdn),
  (55770, "Akamai", .cdn),
  (133103, "Akamai", .cdn),
  (54113, "Fastly", .cdn),
  (15133, "Verizon Edgecast", .cdn),
  (12989, "StackPath", .cdn),
  (30081, "StackPath", .cdn),
  (200651, "KeyCDN", .cdn),
  (200325, "BunnyCDN", .cdn),
  (22822, "Limelight", .cdn),
  (38622, "Limelight", .cdn),
  (36408, "CDNetworks", .cdn),
  (205544, "jsDelivr", .cdn),
  (30148, "Sucuri", .cdn),
  (202468, "ArvanCloud", .cdn),
  (199524, "G-Core Labs", .cdn)
]

/-- Chunk 2 of the `CDN_ASNS` table of `cdn.ts` (split only to keep list literals small). -/
def cdnAsnsChunk2 : List (Nat × String × CdnType) := [
  (202422, "G-Core Labs", .cdn),
  (16509, "Amazon CloudFront/AWS", .cloud),
  (14618, "Amazon AWS", .cloud),
  (8987, "Amazon AWS", .cloud),
  (38895, "Amazon AWS", .cloud),
  (15169, "Google Cloud", .cloud),
  (396982, "Google Cloud", .cloud),
  (19527, "Google Cloud", .cloud),
  (36039, "Google Cloud", .cloud),
  (36040, "Google Cloud", .cloud),
  (41264, "Google Cloud", .cloud),
  (43515, "Google Cloud", .cloud),
  (8075, "Microsoft Azure", .cloud),
  (8068, "Microsoft", .cloud),
  (8069, "Microsoft", .cloud),
  (12076, "Microsoft Azure", .cloud),
  (45102, "Alibaba Cloud", .cloud),
  (37963, "Alibaba Cloud", .cloud),
  (45103, "Alibaba Cloud", .cloud),
  (45090, "Tencent Cloud", .cloud)
]

/-- Chunk 3 of the `CDN_ASNS` table of `cdn.ts` (split only to keep list literals small). -/
def cdnAsnsChunk3 : List (Nat × String × CdnType) := [
  (132203, "Tencent Cloud", .cloud),
  (31898, "Oracle Cloud", .cloud),
  (36351, "IBM Cloud", .cloud),
  (2687, "IBM Cloud", .cloud),
  (14061, "DigitalOcean", .cloud),
  (63949, "Linode", .cloud),
  (20473, "Vultr", .cloud),
  (16276, "OVHcloud", .cloud),
  (24940, "Hetzner", .cloud),
  (12876, "Scaleway", .cloud),
  (25697, "UpCloud", .cloud),
  (7684, "Sakura Internet", .cloud),
  (9370, "Sakura Internet", .cloud),
  (7506, "GMO Internet", .cloud),
  (17511, "IDCF", .cloud),
  (4713, "NTT Communications", .cloud),
  (2516, "KDDI", .cloud),
  (2497, "IIJ", .cloud),
  (23576, "Naver Cloud", .cloud),
  (209366, "Vercel", .hosting)
]

/-- Chunk 4 of the `CDN_ASNS` table of `cdn.ts` (split only to keep list literals small). -/
def cdnAsnsChunk4 : List (Nat × String × CdnType) := [
  (212481, "Netlify", .hosting),
  (60626, "Heroku", .hosting),
  (397373, "Render", .hosting),
  (40509, "Fly.io", .hosting),
  (36459, "GitHub", .hosting),
  (56987, "GitLab", .hosting),
  (53831, "Squarespace", .hosting),
  (58113, "Wix", .hosting),
  (13413, "Shopify", .hosting),
  (2635, "Automattic/WordPress.com", .hosting),
  (62638, "Pantheon", .hosting),
  (46664, "WP Engine", .hosting),
  (395894, "Kinsta", .hosting),
  (19551, "Imperva Incapsula", .security),
  (55002, "F5 Networks", .security),
  (38621, "Radware", .security),
  (7786, "Neustar", .security),
  (19905, "Neustar", .security)
]

/-- Table `CDN_ASNS` from `cdn.ts`: a JavaScript object keyed by ASN.  Its keys are
pairwise distinct (`cdnAsns_keys_nodup` below), so the object lookup
`CDN_ASNS[asn]` coincides with a first-match scan of this list. -/
def CDN_ASNS : List (Nat × String × CdnType) :=
   cdnAsnsChunk0 ++ cdnAsnsChunk1 ++ cdnAsnsChunk2 ++ cdnAsnsChunk3 ++ cdnAsnsChunk4

/-- Chunk 0 of the `CDN_HOSTNAME_PATTERNS` table of `cdn.ts`. -/
def cdnHostPatternsChunk0 : List (String × String × CdnType) := [
  (".cloudfront.net", "Amazon CloudFront", .cdn),
  (".cloudflare.com", "Cloudflare", .cdn),
  (".akamaiedge.net", "Akamai", .cdn),
  (".akamai.net", "Akamai", .cdn),
  (".akamaihd.net", "Akamai", .cdn),
  (".edgesuite.net", "Akamai", .cdn),
  (".edgekey.net", "Akamai", .cdn),
  (".srip.net", "Akamai", .cdn),
  (".akamaitechnologies.com", "Akamai", .cdn),
  (".fastly.net", "Fastly", .cdn),
  (".fastlylb.net", "Fastly", .cdn),
  (".azureedge.net", "Azure CDN", .cdn),
  (".vo.msecnd.net", "Azure CDN", .cdn),
  (".edgecastcdn.net", "Verizon Edgecast", .cdn),
  (".systemcdn.net", "Verizon Edgecast", .cdn),
  (".stackpathdns.com", "StackPath", .cdn),
  (".stackpathcdn.com", "StackPath", .cdn),
  (".kxcdn.com", "KeyCDN", .cdn),
  (".b-cdn.net", "BunnyCDN", .cdn),
  (".bunnycdn.com", "BunnyCDN", .cdn)
]

/-- Chunk 1 of the `CDN_HOSTNAME_PATTERNS` table of `cdn.ts`. -/
def cdnHostPatternsChunk1 : List (String × String × CdnType) := [
  (".llnwd.net", "Limelight", .cdn),
  (".lldns.net", "Limelight", .cdn),
  (".cdnetworks.net", "CDNetworks", .cdn),
  (".cachefly.net", "CacheFly", .cdn),
  (".cdn77.org", "CDN77", .cdn),
  (".jsdelivr.net", "jsDelivr", .cdn),
  (".unpkg.com", "unpkg", .cdn),
  (".cdnjs.cloudflare.com", "cdnjs", .cdn),
  (".gcore.com", "G-Core Labs", .cdn),
  (".amazonaws.com", "Amazon AWS", .cloud),
  (".awsglobalaccelerator.com", "AWS Global Accelerator", .cloud),
  (".elasticbeanstalk.com", "AWS Elastic Beanstalk", .cloud),
  (".googleapis.com", "Google Cloud", .cloud),
  (".googleusercontent.com", "Google Cloud", .cloud),
  (".ghs.googlehosted.com", "Google", .cloud),
  (".run.app", "Google Cloud Run", .cloud),
  (".appspot.com", "Google App Engine", .cloud),
  (".firebaseapp.com", "Firebase", .cloud),
  (".web.app", "Firebase", .cloud),
  (".azure.com", "Microsoft Azure", .cloud)
]

/-- Chunk 2 of the `CDN_HOSTNAME_PATTERNS` table of `cdn.ts`. -/
def cdnHostPatternsChunk2 : List (String × String × CdnType) := [
  (".azurewebsites.net", "Azure App Service", .cloud),
  (".blob.core.windows.net", "Azure Blob", .cloud),
  (".trafficmanager.net", "Azure Traffic Manager", .cloud),
  (".cloudapp.azure.com", "Azure", .cloud),
  (".digitaloceanspaces.com", "DigitalOcean", .cloud),
  (".ondigitalocean.app", "DigitalOcean App Platform", .cloud),
  (".vultr.com", "Vultr", .cloud),
  (".linode.com", "Linode", .cloud),
  (".linodeobjects.com", "Linode", .cloud),
  (".ovh.net", "OVHcloud", .cloud),
  (".hetzner.com", "Hetzner", .cloud),
  (".scaleway.com", "Scaleway", .cloud),
  (".aliyuncs.com", "Alibaba Cloud", .cloud),
  (".alicdn.com", "Alibaba Cloud CDN", .cloud),
  (".myqcloud.com", "Tencent Cloud", .cloud),
  (".oraclecloud.com", "Oracle Cloud", .cloud),
  (".sakura.ne.jp", "Sakura Internet", .cloud),
  (".vercel.app", "Vercel", .hosting),
  (".now.sh", "Vercel", .hosting),
  (".netlify.app", "Netlify", .hosting)
]

/-- Chunk 3 of the `CDN_HOSTNAME_PATTERNS` table of `cdn.ts`. -/
def cdnHostPatternsChunk3 : List (String × String × CdnType) := [
  (".netlify.com", "Netlify", .hosting),
  (".herokuapp.com", "Heroku", .hosting),
  (".onrender.com", "Render", .hosting),
  (".fly.dev", "Fly.io", .hosting),
  (".railway.app", "Railway", .hosting),
  (".github.io", "GitHub Pages", .hosting),
  (".gitlab.io", "GitLab Pages", .hosting),
  (".pages.dev", "Cloudflare Pages", .hosting),
  (".workers.dev", "Cloudflare Workers", .hosting),
  (".deno.dev", "Deno Deploy", .hosting),
  (".squarespace.com", "Squarespace", .hosting),
  (".wixsite.com", "Wix", .hosting),
  (".myshopify.com", "Shopify", .hosting),
  (".shopifypreview.com", "Shopify", .hosting),
  (".wordpress.com", "WordPress.com", .hosting),
  (".wpcomstaging.com", "WordPress.com", .hosting),
  (".pantheonsite.io", "Pantheon", .hosting),
  (".wpengine.com", "WP Engine", .hosting),
  (".kinsta.cloud", "Kinsta", .hosting),
  (".incapdns.net", "Imperva Incapsula", .security)
]

/-- Chunk 4 of the `CDN_HOSTNAME_PATTERNS` table of `cdn.ts`. -/
def cdnHostPatternsChunk4 : List (String × String × CdnType) := [
  (".impervadns.net", "Imperva", .security),
  (".sucuri.net", "Sucuri", .security)
]

/-- Table `CDN_HOSTNAME_PATTERNS` from `cdn.ts`, in source order.  Every pattern in
the source is a case-insensitive regex of the shape `/\.some\.suffix$/i` — an
end-anchored literal with no wildcard — so each is represented by its literal
suffix string (leading dot included). -/
def CDN_HOSTNAME_PATTERNS : List (String × String × CdnType) :=
   cdnHostPatternsChunk0 ++ cdnHostPatternsChunk1 ++ cdnHostPatternsChunk2 ++ cdnHostPatternsChunk3 ++ cdnHostPatternsChunk4

/-- Chunk 0 of the `CDN_IP_PREFIXES` table of `cdn.ts`. -/
def cdnIpPrefixesChunk0 : List (String × String × CdnType) := [
  ("104.16.", "Cloudflare", .cdn),
  ("104.17.", "Cloudflare", .cdn),
  ("104.18.", "Cloudflare", .cdn),
  ("104.19.", "Cloudflare", .cdn),
  ("104.20.", "Cloudflare", .cdn),
  ("104.21.", "Cloudflare", .cdn),
  ("104.22.", "Cloudflare", .cdn),
  ("104.23.", "Cloudflare", .cdn),
  ("104.24.", "Cloudflare", .cdn),
  ("104.25.", "Cloudflare", .cdn),
  ("104.26.", "Cloudflare", .cdn),
  ("104.27.", "Cloudflare", .cdn),
  ("172.64.", "Cloudflare", .cdn),
  ("172.65.", "Cloudflare", .cdn),
  ("172.66.", "Cloudflare", .cdn),
  ("172.67.", "Cloudflare", .cdn),
  ("173.245.", "Cloudflare", .cdn),
  ("103.21.", "Cloudflare", .cdn),
  ("103.22.", "Cloudflare", .cdn),
  ("103.31.", "Cloudflare", .cdn)
]

/-- Chunk 1 of the `CDN_IP_PREFIXES` table of `cdn.ts`. -/
def cdnIpPrefixesChunk1 : List (String × String × CdnType) := [
  ("141.101.", "Cloudflare", .cdn),
  ("108.162.", "Cloudflare", .cdn),
  ("190.93.", "Cloudflare", .cdn),
  ("188.114.", "Cloudflare", .cdn),
  ("197.234.", "Cloudflare", .cdn),
  ("198.41.", "Cloudflare", .cdn),
  ("162.158.", "Cloudflare", .cdn),
  ("131.0.72.", "Cloudflare", .cdn),
  ("13.32.", "Amazon CloudFront", .cdn),
  ("13.33.", "Amazon CloudFront", .cdn),
  ("13.35.", "Amazon CloudFront", .cdn),
  ("13.224.", "Amazon CloudFront", .cdn),
  ("13.225.", "Amazon CloudFront", .cdn),
  ("13.226.", "Amazon CloudFront", .cdn),
  ("13.227.", "Amazon CloudFront", .cdn),
  ("13.249.", "Amazon CloudFront", .cdn),
  ("18.64.", "Amazon CloudFront", .cdn),
  ("18.154.", "Amazon CloudFront", .cdn),
  ("18.160.", "Amazon CloudFront", .cdn),
  ("18.164.", "Amazon CloudFront", .cdn)
]

/-- Chunk 2 of the `CDN_IP_PREFIXES` table of `cdn.ts`. -/
def cdnIpPrefixesChunk2 : List (String × String × CdnType) := [
  ("18.165.", "Amazon CloudFront", .cdn),
  ("18.172.", "Amazon CloudFront", .cdn),
  ("52.84.", "Amazon CloudFront", .cdn),
  ("52.85.", "Amazon CloudFront", .cdn),
  ("54.182.", "Amazon CloudFront", .cdn),
  ("54.192.", "Amazon CloudFront", .cdn),
  ("54.230.", "Amazon CloudFront", .cdn),
  ("54.239.128.", "Amazon CloudFront", .cdn),
  ("54.239.192.", "Amazon CloudFront", .cdn),
  ("70.132.", "Amazon CloudFront", .cdn),
  ("99.84.", "Amazon CloudFront", .cdn),
  ("99.86.", "Amazon CloudFront", .cdn),
  ("143.204.", "Amazon CloudFront", .cdn),
  ("204.246.", "Amazon CloudFront", .cdn),
  ("205.251.", "Amazon CloudFront", .cdn),
  ("216.137.", "Amazon CloudFront", .cdn),
  ("151.101.", "Fastly", .cdn),
  ("199.232.", "Fastly", .cdn),
  ("76.76.21.", "Vercel", .hosting)
]

/-- Table `CDN_IP_PREFIXES` from `cdn.ts`, in source order. -/
def CDN_IP_PREFIXES : List (String × String × CdnType) :=
   cdnIpPrefixesChunk0 ++ cdnIpPrefixesChunk1 ++ cdnIpPrefixesChunk2
/-- The test `pattern.test(hostname)` for the suffix regexes of `CDN_HOSTNAME_PATTERNS`:
a case-insensitive (ASCII, as hostnames are) suffix test. -/
def hostMatches (h : String) (suffix : String) : Bool :=
  (suffix.toList.map Char.toLower).isSuffixOf (h.toList.map Char.toLower)

/-- The object lookup `CDN_ASNS[asn]`: first (equivalently, by key uniqueness,
only) entry with the given key. -/
def findAsnEntry (a : Nat) : List (Nat × String × CdnType) → Option (String × CdnType)
  | [] => none
  | (k, e) :: rest => if k = a then some e else findAsnEntry a rest

/-- The `for`-loop over `CDN_HOSTNAME_PATTERNS` in `detectCdn`: first matching
pattern wins. -/
def findHostEntry (h : String) : List (String × String × CdnType) → Option (String × CdnType)
  | [] => none
  | (suffix, e) :: rest => if hostMatches h suffix then some e else findHostEntry h rest

/-- The `for`-loop over `CDN_IP_PREFIXES` in `detectCdn`: first entry whose
string is a prefix of the IP text (`ip.startsWith(prefix)`) wins. -/
def findIpEntry (ip : String) : List (String × String × CdnType) → Option (String × CdnType)
  | [] => none
  | (pre, e) :: rest => if pre.toList.isPrefixOf ip.toList then some e else findIpEntry ip rest

/-- Which of the three signal tiers of `detectCdn` fired. -/
inductive DetectionSignal
  | byAsn
  | byHostname
  | byIpRange
  deriving DecidableEq, Repr

/-- The word interpolated after `Detected by ` in the three note templates. -/
def signalLabel : DetectionSignal → String
  | .byAsn => "ASN"
  | .byHostname => "hostname"
  | .byIpRange => "IP range"

/-- The three `note` template literals of `detectCdn`; the location wording is
`edge server` for `type === 'cdn'` and `cloud region` for every other type. -/
def detectionNote (sig : DetectionSignal) (ty : CdnType) : String :=
  "Detected by " ++ signalLabel sig ++ ". Location shows " ++
    (if ty = CdnType.cdn then "edge server" else "cloud region") ++ ", not origin."

/-- The `CdnInfo` record a firing tier of `detectCdn` returns. -/
def foundInfo (sig : DetectionSignal) (e : String × CdnType) : CdnInfo :=
  { isCdn := true, provider := some e.1, type := some e.2, note := some (detectionNote sig e.2) }

/-- Tier 1 of `detectCdn`: `asn && CDN_ASNS[asn]`.  JavaScript truthiness makes
both `undefined` and `0` skip the tier. -/
def asnTier (asn : Option Nat) : Option (String × CdnType) :=
  match asn with
  | none => none
  | some a => if a = 0 then none else findAsnEntry a CDN_ASNS

/-- Tier 2 of `detectCdn`: `if (hostname)` (empty string is falsy) followed by
the pattern loop. -/
def hostnameTier (hostname : Option String) : Option (String × CdnType) :=
  match hostname with
  | none => none
  | some h => if h = "" then none else findHostEntry h CDN_HOSTNAME_PATTERNS

/-- Tier 3 of `detectCdn`: the prefix loop. -/
def ipTier (ip : String) : Option (String × CdnType) :=
  findIpEntry ip CDN_IP_PREFIXES

/-- Function `detectCdn` from `cdn.ts`. -/
def detectCdn (ip : String) (asn : Option Nat := none) (hostname : Option String := none) :
    CdnInfo :=
  match asnTier asn with
  | some e => foundInfo .byAsn e
  | none =>
    match hostnameTier hostname with
    | some e => foundInfo .byHostname e
    | none =>
      match ipTier ip with
      | some e => foundInfo .byIpRange e
      | none => { isCdn := false }

example :
    detectCdn "1.1.1.1" (some 13335) none =
      { isCdn := true, provider := some "Cloudflare", type := some .cdn,
        note := some "Detected by ASN. Location shows edge server, not origin." } := by
  decide

example : detectCdn "93.184.216.34" none none = { isCdn := false } := by decide

example :
    (detectCdn "1.2.3.4" none (some "d123456.cloudfront.net")).provider =
      some "Amazon CloudFront" := by decide

example : (detectCdn "104.16.1.1" none none).provider = some "Cloudflare" := by decide

/-! ### Tier miss predicates -/

/-- Tier 1 does not fire: the supplied ASN (if any) is not a key of `CDN_ASNS`. -/
def asnMiss (asn : Option Nat) : Prop :=
  ∀ a nm ty, asn = some a → (a, nm, ty) ∉ CDN_ASNS

/-- Tier 2 does not fire: the supplied hostname (if any) matches no pattern. -/
def hostnameMiss (hostname : Option String) : Prop :=
  ∀ h p, hostname = some h → p ∈ CDN_HOSTNAME_PATTERNS → hostMatches h p.1 = false

/-- Tier 3 does not fire: no known prefix is a textual prefix of the IP. -/
def ipMiss (ip : String) : Prop :=
  ∀ p ∈ CDN_IP_PREFIXES, p.1.toList.isPrefixOf ip.toList = false

/-! ### Claim C9: wording of the `note` field -/

/-- Whether `pat` occurs as a contiguous run inside `s` (character-list level). -/
def listHasInfix (s pat : List Char) : Bool :=
  pat.isPrefixOf s ||
    match s with
    | [] => false
    | _ :: rest => listHasInfix rest pat

/-- Substring test used to state claims about the wording of `note`. -/
def containsSub (s pat : String) : Bool :=
  listHasInfix s.toList pat.toList

/-! ### Data model of `types.ts` -/

/-- Structure `GeoLocation` from `types.ts`.  `latitude`/`longitude` are floating-point
numbers in the source; no claim inspects their numeric value, so the embedding
carries the textual pieces they are parsed from. -/
structure GeoLocation where
  ip : String
  country : Option String := none
  countryCode : Option String := none
  region : Option String := none
  city : Option String := none
  latitude : Option String := none
  longitude : Option String := none
  timezone : Option String := none
  postalCode : Option String := none
  deriving DecidableEq, Repr

/-- Structure `NetworkInfo` from `types.ts`.  The `isp` field is declared there but never
populated by the core. -/
structure NetworkInfo where
  asn : Option Nat := none
  org : Option String := none
  isp : Option String := none
  deriving DecidableEq, Repr

/-- Union `ProviderType` from `types.ts`. -/
inductive ProviderType
  | «local»
  | ipinfo
  | auto
  deriving DecidableEq, Repr

/-- Structure `GeoResult` from `types.ts` (with the `cdn` field that `lookup.ts`
attaches).  The `cached` flag is reserved and never set by the core. -/
structure GeoResult where
  input : String
  ip : String
  geo : GeoLocation
  network : Option NetworkInfo := none
  provider : ProviderType
  cdn : Option CdnInfo := none
  cached : Option Bool := none
  error : Option String := none
  deriving DecidableEq, Repr

/-- Structure `LookupOptions` from `types.ts`, restricted to the fields the lookup engine
reads (`json`, `verbose` and `dbPath` are never consulted by `lookup` or
`lookupBatch`; the progress callback is modelled with the worker pool). -/
structure LookupOptions where
  provider : ProviderType
  apiKey : Option String := none
  concurrency : Option Nat := none
  deriving Repr

/-- JavaScript truthiness of an optional string: `undefined` and `""` are falsy. -/
def jsTruthyStr (o : Option String) : Bool :=
  match o with
  | some s => s != ""
  | none => false

/-- JavaScript `a || b` on an optional string: `undefined` and `""` are falsy. -/
def jsStringOr (o : Option String) (d : String) : String :=
  match o with
  | some s => if s = "" then d else s
  | none => d

/-- JavaScript template interpolation of a possibly-`undefined` string. -/
def jsInterp (o : Option String) : String :=
  match o with
  | some s => s
  | none => "undefined"

/-! ### The ipinfo.io provider (`providers/ipinfo.ts`) -/

/-- Constant `TIMEOUT_MS` from `providers/ipinfo.ts`: per-request abort timeout. -/
def TIMEOUT_MS : Nat := 10000

/-- Constant `MAX_RETRIES` from `providers/ipinfo.ts`. -/
def MAX_RETRIES : Nat := 2

/-- Constant `RETRY_DELAY_MS` from `providers/ipinfo.ts`. -/
def RETRY_DELAY_MS : Nat := 1000

/-- The JSON body shape the provider reads from a 2xx response. -/
structure IpinfoBody where
  ip : String
  hostname : Option String := none
  city : Option String := none
  region : Option String := none
  country : Option String := none
  loc : Option String := none
  org : Option String := none
  postal : Option String := none
  timezone : Option String := none
  deriving DecidableEq, Repr

/-- Outcome of one `fetchWithTimeout` call: a 2xx response with parsed body, a
non-2xx response (`!response.ok`), or a thrown network/abort error. -/
inductive FetchOutcome
  | ok (body : IpinfoBody)
  | httpError (status : Nat) (statusText : String)
  | netError (message : String) (isTimeout : Bool)
  deriving DecidableEq, Repr

/-- JavaScript `\s` character class (the whitespace set of `RegExp`). -/
def isJsSpace (c : Char) : Bool :=
  c == ' ' || c == '\t' || c == '\n' || c == '\r' ||
    c.toNat == 11 || c.toNat == 12 || c.toNat == 0xa0 || c.toNat == 0x1680 ||
    (0x2000 ≤ c.toNat && c.toNat ≤ 0x200a) ||
    c.toNat == 0x2028 || c.toNat == 0x2029 || c.toNat == 0x202f ||
    c.toNat == 0x205f || c.toNat == 0x3000 || c.toNat == 0xfeff

/-- JavaScript line terminators, which `.` does not match without the `s` flag. -/
def isLineTerm (c : Char) : Bool :=
  c == '\n' || c == '\r' || c.toNat == 0x2028 || c.toNat == 0x2029

/-- The value of `parseInt(digits, 10)` on a non-empty all-digit string (the embedding uses
exact naturals where JavaScript would lose precision past 2^53). -/
def digitsToNat (ds : List Char) : Nat :=
  ds.foldl (fun n c => n * 10 + (c.toNat - '0'.toNat)) 0

/-- The regex match `org.match(/^AS(\d+)\s+(.*)$/)` of `providers/ipinfo.ts`,
returning the two capture groups on success.  Digits and whitespace are
disjoint classes, so the greedy maximal-munch reading is exact; `.*` rejects a
remainder containing a line terminator (no `s`/`m` flags on the regex). -/
def orgAsnMatch (o : String) : Option (List Char × String) :=
  match o.toList with
  | 'A' :: 'S' :: rest =>
    let ds := rest.takeWhile Char.isDigit
    let afterDigits := rest.dropWhile Char.isDigit
    if ds.isEmpty then none
    else
      let ws := afterDigits.takeWhile isJsSpace
      let tail := afterDigits.dropWhile isJsSpace
      if ws.isEmpty then none
      else if tail.any isLineTerm then none
      else some (ds, String.mk tail)
  | _ => none

/-- The error-shaped `GeoResult` literals of `providers/ipinfo.ts`. -/
def ipinfoErrorResult (ip msg : String) : GeoResult :=
  { input := ip, ip := ip, geo := { ip := ip }, provider := .ipinfo, error := some msg }

/-- The `// Parse ASN from org field` block of `providers/ipinfo.ts`: absent
(`undefined`) and empty `org` values are falsy for `if (data.org)`; a matching
value decomposes into the decoded ASN and the trailing organization name; any
other value is kept whole as the organization name with no ASN. -/
def ipinfoParsedOrg (org : Option String) : Option Nat × Option String :=
  match org with
  | none => (none, none)
  | some o =>
    if o = "" then (none, none)
    else
      match orgAsnMatch o with
      | some (ds, rest) => (some (digitsToNat ds), some rest)
      | none => (none, some o)

/-- The success `GeoResult` of `providers/ipinfo.ts` built from a parsed body:
`loc` is split on `,` into the two coordinates, and the `org` field is
decomposed via `ipinfoParsedOrg`; `network` is only attached when `asn || org`
is truthy (JavaScript: `0` and `""` are falsy). -/
def ipinfoSuccess (queriedIp : String) (data : IpinfoBody) : GeoResult :=
  let locPieces : List String :=
    match data.loc with
    | some l => l.splitOn ","
    | none => []
  let parsed : Option Nat × Option String := ipinfoParsedOrg data.org
  let truthyAsn : Bool := match parsed.1 with | some n => n != 0 | none => false
  let truthyOrg : Bool := match parsed.2 with | some s => s != "" | none => false
  { input := queriedIp
    ip := data.ip
    geo := { ip := data.ip, countryCode := data.country, region := data.region,
             city := data.city, latitude := locPieces.get? 0, longitude := locPieces.get? 1,
             timezone := data.timezone, postalCode := data.postal }
    network := if truthyAsn || truthyOrg then some { asn := parsed.1, org := parsed.2 } else none
    provider := .ipinfo }

/-- Observable behaviour of one `createIpinfoProvider(...).lookup(ip)` call:
the returned result, how many fetches were issued, and the backoff sleeps (in
milliseconds, in order). -/
structure IpinfoRun where
  result : GeoResult
  attemptsUsed : Nat
  sleeps : List Nat
  deriving DecidableEq, Repr

/-- The retry loop `for (attempt = 0; attempt <= MAX_RETRIES; attempt++)` of
`providers/ipinfo.ts`.  `fetch attempt` is an oracle giving the outcome of the
`attempt`-th fetch; `fuel` equals `MAX_RETRIES + 1 - attempt` so the recursion
is structural.  URL and token plumbing are absorbed into the oracle. -/
def ipinfoAttemptLoop (fetch : Nat → FetchOutcome) (ip : String) :
    Nat → Nat → Option String → List Nat → IpinfoRun
  | 0, attempt, lastError, sleeps =>
    { result := ipinfoErrorResult ip
        ("Request failed after " ++ toString (MAX_RETRIES + 1) ++ " attempts: " ++
          jsInterp lastError)
      attemptsUsed := attempt
      sleeps := sleeps.reverse }
  | fuel + 1, attempt, lastError, sleeps =>
    match fetch attempt with
    | .httpError status statusText =>
      if status = 429 then
        { result := ipinfoErrorResult ip
            "Rate limit exceeded. Consider using --provider local or set IPINFO_TOKEN"
          attemptsUsed := attempt + 1
          sleeps := sleeps.reverse }
      else if 500 ≤ status ∧ attempt < MAX_RETRIES then
        ipinfoAttemptLoop fetch ip fuel (attempt + 1)
          (some ("API error: " ++ toString status ++ " " ++ statusText))
          ((RETRY_DELAY_MS * (attempt + 1)) :: sleeps)
      else
        { result := ipinfoErrorResult ip ("API error: " ++ toString status ++ " " ++ statusText)
          attemptsUsed := attempt + 1
          sleeps := sleeps.reverse }
    | .ok data =>
      { result := ipinfoSuccess ip data
        attemptsUsed := attempt + 1
        sleeps := sleeps.reverse }
    | .netError message isTimeout =>
      if attempt < MAX_RETRIES then
        ipinfoAttemptLoop fetch ip fuel (attempt + 1)
          (some (if isTimeout then "Request timeout" else message))
          ((RETRY_DELAY_MS * (attempt + 1)) :: sleeps)
      else
        { result := ipinfoErrorResult ip ("Request failed: " ++ jsStringOr lastError message)
          attemptsUsed := attempt + 1
          sleeps := sleeps.reverse }

/-- Function `createIpinfoProvider(apiKey).lookup(ip)` from `providers/ipinfo.ts`. -/
def ipinfoLookup (fetch : Nat → FetchOutcome) (ip : String) : IpinfoRun :=
  ipinfoAttemptLoop fetch ip (MAX_RETRIES + 1) 0 none []

/-! ### The local GeoLite2 provider (`providers/local.ts`) -/

/-- A record of the city database (`cityReader.get(ip)`), reduced to the fields
`providers/local.ts` projects out; latitude/longitude carried textually. -/
structure CityRecord where
  country : Option String := none
  countryCode : Option String := none
  region : Option String := none
  city : Option String := none
  latitude : Option String := none
  longitude : Option String := none
  timezone : Option String := none
  postalCode : Option String := none
  deriving DecidableEq, Repr

/-- A record of the ASN database (`asnReader.get(ip)`). -/
structure AsnRecord where
  autonomousSystemNumber : Option Nat := none
  autonomousSystemOrganization : Option String := none
  deriving DecidableEq, Repr

/-- The on-disk database state the local provider reads.  `available` is the
outcome of `initReaders()` (city database present and parsed); the two getters
model `reader.get(ip)`, with `Except` for a thrown reader error and `none` for
an IP absent from the database or an absent ASN reader. -/
structure LocalDb where
  available : Bool
  cityGet : String → Except String (Option CityRecord)
  asnGet : String → Except String (Option AsnRecord)

/-- The error-shaped `GeoResult` literals of `providers/local.ts`. -/
def localErrorResult (ip msg : String) : GeoResult :=
  { input := ip, ip := ip, geo := { ip := ip }, provider := .«local», error := some msg }

/-- Function `localProvider.lookup(ip)` from `providers/local.ts`: unavailable database,
thrown reader errors (`catch`), IP not found, and the success record with
optional ASN enrichment. -/
def localLookup (db : LocalDb) (ip : String) : GeoResult :=
  if !db.available then
    localErrorResult ip "GeoLite2 database not found. Run: geovet db update"
  else
    match db.cityGet ip with
    | .error e => localErrorResult ip ("Lookup failed: " ++ e)
    | .ok cityResult =>
      match db.asnGet ip with
      | .error e => localErrorResult ip ("Lookup failed: " ++ e)
      | .ok asnResult =>
        match cityResult with
        | none => localErrorResult ip "IP not found in database"
        | some c =>
          { input := ip
            ip := ip
            geo := { ip := ip, country := c.country, countryCode := c.countryCode,
                     region := c.region, city := c.city, latitude := c.latitude,
                     longitude := c.longitude, timezone := c.timezone,
                     postalCode := c.postalCode }
            network :=
              match asnResult with
              | some a => some { asn := a.autonomousSystemNumber,
                                 org := a.autonomousSystemOrganization }
              | none => none
            provider := .«local» }

/-! ### The lookup orchestrator (`lookup.ts`) -/

/-- The external collaborators of one `lookup` call: `net.isIP` (as its
truthiness), the two DNS resolvers (`Except` models a rejection), the local
database state, and the fetch outcomes of the remote provider per queried IP.
With these fixed, the whole pipeline is a pure function. -/
structure Env where
  isIp : String → Bool
  resolve4 : String → Except Unit (List String)
  resolve6 : String → Except Unit (List String)
  localDb : LocalDb
  fetch : String → Nat → FetchOutcome

/-- Function `resolveToIp` from `lookup.ts`.  A literal IP is used directly; otherwise
`resolve4` is tried and its first address taken; only when `resolve4` *throws*
is `resolve6` tried (an empty `resolve4` list falls through to the failure
return without consulting `resolve6`, because the empty-result path of the
`try` block raises nothing for the `catch` to intercept). -/
def resolveToIp (env : Env) (input : String) : String × Option String :=
  if env.isIp input then (input, none)
  else
    match env.resolve4 input with
    | .ok addresses =>
      match addresses with
      | a :: _ => (a, none)
      | [] => ("", some ("Could not resolve: " ++ input))
    | .error _ =>
      match env.resolve6 input with
      | .ok addresses =>
        match addresses with
        | a :: _ => (a, none)
        | [] => ("", some ("Could not resolve: " ++ input))
      | .error _ => ("", some ("Could not resolve: " ++ input))

/-- The provider-selection block of `lookup` (`lookup.ts` lines 66–90): for
`auto`, try the local provider when available and fall back to ipinfo on
unavailability or on a local error (whose message is discarded); for `local`
and `ipinfo`, call exactly that provider (`getProvider`).  Every branch spreads
the provider result and overrides `input` with the original input string. -/
def providerResult (env : Env) (input ip : String) (options : LookupOptions) : GeoResult :=
  match options.provider with
  | .auto =>
    if env.localDb.available then
      let localResult := localLookup env.localDb ip
      if localResult.error = none then { localResult with input := input }
      else { (ipinfoLookup (env.fetch ip) ip).result with input := input }
    else
      { (ipinfoLookup (env.fetch ip) ip).result with input := input }
  | .«local» => { localLookup env.localDb ip with input := input }
  | .ipinfo => { (ipinfoLookup (env.fetch ip) ip).result with input := input }

/-- The `// Detect CDN` block of `lookup` (`lookup.ts` lines 92–103): when the
provider result carries no error, classify the resolved IP with the result's
ASN and — only when the original input was not a literal IP — the original
input as hostname; attach the classification only when `isCdn` fired. -/
def attachCdn (env : Env) (input : String) (result : GeoResult) : GeoResult :=
  if result.error = none then
    let cdnInfo := detectCdn result.ip (result.network.bind NetworkInfo.asn)
      (if env.isIp input then none else some input)
    if cdnInfo.isCdn then { result with cdn := some cdnInfo } else result
  else result

/-- Function `lookup` from `lookup.ts`: resolve the input, select the provider (with the
`auto` availability-then-error fallback), echo the original `input`, and attach
the classification only when the provider succeeded and `isCdn` fired.  The
`apiKey`/`IPINFO_TOKEN` plumbing only shapes the request URL and is absorbed by
the fetch oracle. -/
def lookup (env : Env) (input : String) (options : LookupOptions) : GeoResult :=
  let resolved := resolveToIp env input
  let ip := resolved.1
  let error := resolved.2
  if jsTruthyStr error || ip == "" then
    { input := input, ip := "", geo := { ip := "" }, provider := options.provider,
      error := some (jsStringOr error "Failed to resolve IP") }
  else
    attachCdn env input (providerResult env input ip options)

/-! ### Sanity checks of the providers against the repository's stubbed tests -/

example :
    (ipinfoSuccess "8.8.8.8"
        { ip := "8.8.8.8", city := some "Mountain View", region := some "California",
          country := some "US", loc := some "37.4056,-122.0775",
          org := some "AS15169 Google LLC" }).network =
      some { asn := some 15169, org := some "Google LLC" } := by decide

example :
    (ipinfoSuccess "8.8.8.8" { ip := "8.8.8.8", org := some "not an asn org" }).network =
      some { asn := none, org := some "not an asn org" } := by decide

/-! ### The bounded worker pool of `parallelMap` (`lookup.ts`) -/

/-- State of one worker of `parallelMap`: between iterations (`idle`), awaiting
`fn(items[currentIndex])` (`computing i`), or returned (`done`). -/
inductive WStatus
  | idle
  | computing (i : Nat)
  | done
  deriving DecidableEq, Repr

/-- State of one `parallelMap` call: the shared `index` counter, the `results`
buffer, the workers, and the shared `completed` counter. -/
structure PoolState (R : Type) where
  next : Nat
  res : List (Option R)
  workers : List WStatus
  completed : Nat

/-- Small-step semantics of the `worker()` loop of `parallelMap`.  JavaScript
suspends only at `await`, so `index < items.length` and `index++` happen in one
atomic step (`claim`), and the result write, `completed++` and the progress
callback happen in another (`finish`); `exit` is the loop-condition failure
that resolves the worker's promise.  Interleaving the steps of all workers
arbitrarily covers every schedule of the event loop. -/
inductive PoolStep {α R : Type} (items : List α) (fn : α → R) :
    PoolState R → PoolState R → Prop
  | claim (s : PoolState R) (w : Nat)
      (hw : s.workers.get? w = some .idle)
      (hnext : s.next < items.length) :
      PoolStep items fn s
        { next := s.next + 1, res := s.res,
          workers := s.workers.set w (.computing s.next), completed := s.completed }
  | finish (s : PoolState R) (w i : Nat)
      (hw : s.workers.get? w = some (.computing i)) :
      PoolStep items fn s
        { next := s.next, res := s.res.set i ((items.get? i).map fn),
          workers := s.workers.set w .idle, completed := s.completed + 1 }
  | exit (s : PoolState R) (w : Nat)
      (hw : s.workers.get? w = some .idle)
      (hnext : items.length ≤ s.next) :
      PoolStep items fn s
        { next := s.next, res := s.res, workers := s.workers.set w .done,
          completed := s.completed }

/-- Initial state of `parallelMap`: `results = new Array(items.length)` (all
holes), `index = 0`, and `Math.min(concurrency, items.length)` started
workers. -/
def initPool (R : Type) (n w : Nat) : PoolState R :=
  { next := 0, res := List.replicate n none, workers := List.replicate w .idle, completed := 0 }

/-- State in which `Promise.all(workers)` has resolved: every worker has returned. -/
def PoolTerminal {R : Type} (s : PoolState R) : Prop :=
  ∀ st ∈ s.workers, st = WStatus.done

/-- Proposition: `out` is a possible value of `await parallelMap(items, fn, conc)`: some
interleaving of the workers reaches a terminal state whose buffer is `out`.
An unfilled hole of the JavaScript results array is `none`. -/
def PoolRun {α R : Type} (items : List α) (fn : α → R) (conc : Nat)
    (out : List (Option R)) : Prop :=
  ∃ s, Relation.ReflTransGen (PoolStep items fn)
      (initPool R items.length (min conc items.length)) s
    ∧ PoolTerminal s ∧ out = s.res

/-- Inductive invariant of the pool. -/
structure PoolInv {α R : Type} (items : List α) (fn : α → R) (s : PoolState R) : Prop where
  res_length : s.res.length = items.length
  next_le : s.next ≤ items.length
  res_correct : ∀ i v, s.res.get? i = some (some v) → (items.get? i).map fn = some v
  claimed : ∀ i, i < s.next →
    (∃ v, s.res.get? i = some (some v)) ∨ ∃ w, s.workers.get? w = some (.computing i)
  computing_lt : ∀ w i, s.workers.get? w = some (.computing i) → i < s.next
  done_next : (∃ w, s.workers.get? w = some .done) → items.length ≤ s.next

/-! ### Concrete environments shared by witnesses and counterexamples -/

/-- A local database that is not installed. -/
def noDb : LocalDb :=
  { available := false, cityGet := fun _ => .ok none, asnGet := fun _ => .ok none }

/-- DNS fails on both record types. -/
def dnsFailEnv : Env :=
  { isIp := fun _ => false
    resolve4 := fun _ => .error ()
    resolve6 := fun _ => .error ()
    localDb := noDb
    fetch := fun _ _ => .httpError 404 "Not Found" }

/-- A-record resolution succeeds with an *empty* list (no exception thrown),
while AAAA resolution would yield a usable address; this mirrors the stub of
the repository's `AAAA-only domains` test. -/
def aaaaOnlyEnv : Env :=
  { isIp := fun _ => false
    resolve4 := fun _ => .ok []
    resolve6 := fun _ => .ok ["2001:4860:4860::8888"]
    localDb := noDb
    fetch := fun _ _ => .ok { ip := "2001:4860:4860::8888" } }

/-- A-record resolution returns two addresses. -/
def multiAEnv : Env :=
  { isIp := fun _ => false
    resolve4 := fun _ => .ok ["8.8.8.8", "9.9.9.9"]
    resolve6 := fun _ => .error ()
    localDb := noDb
    fetch := fun _ _ => .httpError 404 "Not Found" }

/-- The input is a literal IP; the remote provider answers 404. -/
def okIpEnv : Env :=
  { isIp := fun _ => true
    resolve4 := fun _ => .error ()
    resolve6 := fun _ => .error ()
    localDb := noDb
    fetch := fun _ _ => .httpError 404 "Not Found" }

/-! ### Claims C3 and C4: `lookupBatch` -/

/-- The effective concurrency of `lookupBatch` (`lookup.ts` lines 144–145):
`options.concurrency ?? 50` for the local provider, `?? 10` otherwise.  No
validation is performed on the configured value. -/
def effectiveConcurrency (options : LookupOptions) : Nat :=
  match options.provider with
  | .«local» => options.concurrency.getD 50
  | _ => options.concurrency.getD 10

/-- Proposition: `out` is a possible result of `await lookupBatch(inputs, options)` in
environment `env`: the worker pool over `lookup` with the effective
concurrency. -/
def LookupBatchRun (env : Env) (inputs : List String) (options : LookupOptions)
    (out : List (Option GeoResult)) : Prop :=
  PoolRun inputs (fun input => lookup env input options) (effectiveConcurrency options) out

/-- Options used by the zero-concurrency counterexamples. -/
def zeroConcOptions : LookupOptions := { provider := .ipinfo, concurrency := some 0 }

/-- Default options for the ipinfo provider. -/
def wOpts : LookupOptions := { provider := .ipinfo }

/-- The single-lookup result used by the C3 witness. -/
def wResult : GeoResult := lookup dnsFailEnv "8.8.8.8" wOpts

/-! ### Claim C7: the remote provider's retry policy -/

/-- An attempt outcome the retry loop retries on: a 5xx response or a thrown
network/timeout error (never a 2xx, 429 or other non-5xx status). -/
def retryableOutcome : FetchOutcome → Bool
  | .ok _ => false
  | .httpError status _ => decide (500 ≤ status)
  | .netError _ _ => true

/-- The message recorded into `lastError` when the outcome of an attempt is
retried: the API-error text for a 5xx, `Request timeout` for an abort, the
thrown message otherwise. -/
def recordedError : FetchOutcome → String
  | .httpError status statusText => "API error: " ++ toString status ++ " " ++ statusText
  | .netError message isTimeout => if isTimeout then "Request timeout" else message
  | .ok _ => ""

/-- Three consecutive network failures with distinct messages. -/
def netFailFetch : Nat → FetchOutcome :=
  fun n => .netError ("network error " ++ toString n) false

/-- A first attempt answering 503, a second failing on the network, a third
succeeding. -/
def retryWitnessFetch : Nat → FetchOutcome :=
  fun n =>
    if n = 0 then .httpError 503 "Service Unavailable"
    else if n = 1 then .netError "socket hang up" false
    else .ok { ip := "8.8.8.8" }

/-! ### Claim C8: decomposition of the remote `org` field -/

/-- A response carrying an empty `org` string. -/
def emptyOrgFetch : Nat → FetchOutcome :=
  fun _ => .ok { ip := "5.5.5.5", org := some "" }

/-- The stubbed Google response of the repository's tests. -/
def googleFetch : Nat → FetchOutcome :=
  fun _ => .ok { ip := "8.8.8.8", country := some "US", region := some "California",
                 city := some "Mountain View", loc := some "37.4056,-122.0775",
                 org := some "AS15169 Google LLC" }

/-! Theorems of the development begin here. -/

/-! ### Facts about the static tables -/

/-- The keys of `CDN_ASNS` are pairwise distinct, so the JavaScript object
lookup agrees with the first-match scan `findAsnEntry`. -/
theorem cdnAsns_keys_nodup : (CDN_ASNS.map Prod.fst).Nodup := by decide

/-- No key of `CDN_ASNS` is `0`, so the JavaScript truthiness guard
`asn && CDN_ASNS[asn]` never hides an actual table hit. -/
theorem cdnAsns_keys_ne_zero : ∀ p ∈ CDN_ASNS, p.1 ≠ 0 := by decide

/-- Every hostname pattern suffix is non-empty, so the JavaScript truthiness
guard `if (hostname)` never hides an actual pattern match. -/
theorem cdnHostPatterns_ne_empty : ∀ p ∈ CDN_HOSTNAME_PATTERNS, p.1.toList ≠ [] := by decide

/-! ### First-match scans versus membership and `List.find?` -/

theorem findAsnEntry_eq_some_of_mem {l : List (Nat × String × CdnType)} {a : Nat}
    {e : String × CdnType} (hnd : (l.map Prod.fst).Nodup) (hm : (a, e) ∈ l) :
    findAsnEntry a l = some e := by
  induction l with
  | nil => cases hm
  | cons hd tl ih =>
    obtain ⟨k, e'⟩ := hd
    simp only [List.map_cons, List.nodup_cons] at hnd
    rcases List.mem_cons.mp hm with heq | hmem
    · obtain ⟨rfl, rfl⟩ := Prod.mk.injEq .. ▸ heq
      simp [findAsnEntry]
    · have hka : k ≠ a := by
        rintro rfl
        exact hnd.1 (List.mem_map.mpr ⟨(k, e), hmem, rfl⟩)
      simp only [findAsnEntry, if_neg hka]
      exact ih hnd.2 hmem

theorem mem_of_findAsnEntry_eq_some {l : List (Nat × String × CdnType)} {a : Nat}
    {e : String × CdnType} (h : findAsnEntry a l = some e) : (a, e) ∈ l := by
  induction l with
  | nil => simp [findAsnEntry] at h
  | cons hd tl ih =>
    obtain ⟨k, e'⟩ := hd
    by_cases hk : k = a
    · subst hk
      have h' : e' = e := by simpa [findAsnEntry] using h
      subst h'
      exact List.mem_cons_self ..
    · simp only [findAsnEntry, if_neg hk] at h
      exact List.mem_cons_of_mem _ (ih h)

theorem findHostEntry_eq_find? (h : String) (l : List (String × String × CdnType)) :
    findHostEntry h l = (l.find? (fun q => hostMatches h q.1)).map Prod.snd := by
  induction l with
  | nil => rfl
  | cons hd tl ih =>
    obtain ⟨s, e⟩ := hd
    by_cases hm : hostMatches h s
    · simp [findHostEntry, hm, List.find?_cons_of_pos]
    · simp only [findHostEntry, if_neg hm]
      rw [List.find?_cons_of_neg _ (by simpa using hm)]
      exact ih

theorem findIpEntry_eq_find? (ip : String) (l : List (String × String × CdnType)) :
    findIpEntry ip l = (l.find? (fun q => q.1.toList.isPrefixOf ip.toList)).map Prod.snd := by
  induction l with
  | nil => rfl
  | cons hd tl ih =>
    obtain ⟨s, e⟩ := hd
    by_cases hm : s.toList.isPrefixOf ip.toList
    · simp only [findIpEntry, if_pos hm]
      rw [List.find?_cons_of_pos _ (by simpa using hm)]
      rfl
    · simp only [findIpEntry, if_neg hm]
      rw [List.find?_cons_of_neg _ (by simpa using hm)]
      exact ih

theorem asnTier_eq_none_of_miss {asn : Option Nat} (h : asnMiss asn) : asnTier asn = none := by
  cases asn with
  | none => rfl
  | some a =>
    by_cases h0 : a = 0
    · simp [asnTier, h0]
    · simp only [asnTier, if_neg h0]
      cases hf : findAsnEntry a CDN_ASNS with
      | none => rfl
      | some e =>
        exact absurd (mem_of_findAsnEntry_eq_some hf) (h a e.1 e.2 rfl)

theorem hostMatches_empty_eq_false {s : String} (hs : s.toList ≠ []) :
    hostMatches "" s = false := by
  rw [hostMatches]
  cases he : (s.toList.map Char.toLower).isSuffixOf (("" : String).toList.map Char.toLower) with
  | false => rfl
  | true =>
    have hsuf : s.toList.map Char.toLower <:+ [] := by
      simpa using List.isSuffixOf_iff_suffix.mp he
    have hnil := List.suffix_nil.mp hsuf
    exact absurd (List.map_eq_nil_iff.mp hnil) hs

theorem hostnameTier_eq_none_of_miss {hostname : Option String} (h : hostnameMiss hostname) :
    hostnameTier hostname = none := by
  cases hostname with
  | none => rfl
  | some s =>
    by_cases hemp : s = ""
    · simp [hostnameTier, hemp]
    · simp only [hostnameTier, if_neg hemp]
      rw [findHostEntry_eq_find?]
      rw [List.find?_eq_none.mpr]
      · rfl
      · intro p hp
        simp [h s p rfl hp]

theorem ipTier_eq_none_of_miss {ip : String} (h : ipMiss ip) : ipTier ip = none := by
  rw [ipTier, findIpEntry_eq_find?]
  rw [List.find?_eq_none.mpr]
  · rfl
  · intro p hp
    simp only [Bool.not_eq_true]
    exact h p hp

/-! ### Claim C1: the three ordered signal tiers of `detectCdn` -/

/-- C1.  `detectCdn` (the classify operation) is a pure function of
`(ip, asn, hostname)` — purity and determinism hold by construction, since the
embedding is a total Lean function — and its three signal tiers are strictly
ordered.  (i) If `asn` is a key of the static `CDN_ASNS` table, the result is
built from that table entry, regardless of `ip` and `hostname` (both are
universally quantified on the right of the implication).  (ii) Otherwise, if a
hostname is supplied and some pattern matches it, the result is built from the
first matching pattern in list order.  (iii) Otherwise the result is built from
the first entry of `CDN_IP_PREFIXES` whose string is a textual prefix of `ip`.
(iv) If no tier matches, the result is `{ isCdn := false }`. -/
theorem detectCdn_tier_order (ip : String) (asn : Option Nat) (hostname : Option String) :
    (∀ a nm ty, asn = some a → (a, nm, ty) ∈ CDN_ASNS →
      ∀ ip2 hn2, detectCdn ip2 asn hn2 =
        { isCdn := true, provider := some nm, type := some ty,
          note := some (detectionNote .byAsn ty) })
    ∧ (asnMiss asn → ∀ h p, hostname = some h →
        CDN_HOSTNAME_PATTERNS.find? (fun q => hostMatches h q.1) = some p →
        detectCdn ip asn hostname =
          { isCdn := true, provider := some p.2.1, type := some p.2.2,
            note := some (detectionNote .byHostname p.2.2) })
    ∧ (asnMiss asn → hostnameMiss hostname → ∀ p,
        CDN_IP_PREFIXES.find? (fun q => q.1.toList.isPrefixOf ip.toList) = some p →
        detectCdn ip asn hostname =
          { isCdn := true, provider := some p.2.1, type := some p.2.2,
            note := some (detectionNote .byIpRange p.2.2) })
    ∧ (asnMiss asn → hostnameMiss hostname → ipMiss ip →
        detectCdn ip asn hostname = { isCdn := false }) := by
  refine ⟨?_, ?_, ?_, ?_⟩
  · rintro a nm ty rfl hmem ip2 hn2
    have hne : a ≠ 0 := cdnAsns_keys_ne_zero (a, nm, ty) hmem
    have hfind : findAsnEntry a CDN_ASNS = some (nm, ty) :=
      findAsnEntry_eq_some_of_mem cdnAsns_keys_nodup hmem
    have htier : asnTier (some a) = some (nm, ty) := by
      simp [asnTier, hne, hfind]
    simp [detectCdn, htier, foundInfo]
  · rintro hmiss h p rfl hfind
    have hne : h ≠ "" := by
      rintro rfl
      have hmem := List.mem_of_find?_eq_some hfind
      have hmatch : hostMatches "" p.1 = true := by simpa using List.find?_some hfind
      rw [hostMatches_empty_eq_false (cdnHostPatterns_ne_empty p hmem)] at hmatch
      exact Bool.false_ne_true hmatch
    have htier : hostnameTier (some h) = some p.2 := by
      simp only [hostnameTier, if_neg hne]
      rw [findHostEntry_eq_find?, hfind]
      rfl
    simp [detectCdn, asnTier_eq_none_of_miss hmiss, htier, foundInfo]
  · rintro hmiss hmiss2 p hfind
    have htier : ipTier ip = some p.2 := by
      rw [ipTier, findIpEntry_eq_find?, hfind]
      rfl
    simp [detectCdn, asnTier_eq_none_of_miss hmiss,
      hostnameTier_eq_none_of_miss hmiss2, htier, foundInfo]
  · intro hmiss hmiss2 hmiss3
    simp [detectCdn, asnTier_eq_none_of_miss hmiss,
      hostnameTier_eq_none_of_miss hmiss2, ipTier_eq_none_of_miss hmiss3]

/-- Witness for C1: the ASN tier fires for Cloudflare's ASN 13335 and takes
priority over a hostname that would itself match a (different) pattern. -/
theorem detectCdn_tier_order_witness :
    detectCdn "8.8.8.8" (some 13335) (some "example.fastly.net") =
      { isCdn := true, provider := some "Cloudflare", type := some CdnType.cdn,
        note := some "Detected by ASN. Location shows edge server, not origin." } :=
  (detectCdn_tier_order "8.8.8.8" (some 13335) (some "example.fastly.net")).1
    13335 "Cloudflare" CdnType.cdn rfl (by decide) "8.8.8.8" (some "example.fastly.net")

/-- C9 counterexample.  For the `hosting` entry ASN 209366 (Vercel) the note
produced by `detectCdn` contains the phrase `cloud region` and no generic
provider-location phrase: the source templates word every non-`cdn` category —
including `hosting` and `security` — as `cloud region`.  The claim states that
for `hosting`/`security` the note contains neither `edge server` nor
`cloud region`, which is therefore false at this input. -/
theorem detectCdn_note_hosting_cex :
    (detectCdn "1.2.3.4" (some 209366) none).type = some CdnType.hosting
    ∧ containsSub ((detectCdn "1.2.3.4" (some 209366) none).note.getD "") "cloud region" = true
    ∧ containsSub ((detectCdn "1.2.3.4" (some 209366) none).note.getD "") "edge server" = false :=
  ⟨by decide, by decide, by decide⟩

/-- C9 amended.  For every classification with `isCdn = true`, the note
contains `edge server` exactly when the category is `cdn`, and contains
`cloud region` exactly when the category is *not* `cdn` (so `cloud`,
`hosting` and `security` all share the `cloud region` wording; there is no
separate generic phrase for `hosting`/`security`). -/
theorem detectCdn_note_wording (ip : String) (asn : Option Nat) (hostname : Option String)
    (ty : CdnType) (note : String)
    (hty : (detectCdn ip asn hostname).type = some ty)
    (hnote : (detectCdn ip asn hostname).note = some note) :
    (containsSub note "edge server" = true ↔ ty = CdnType.cdn)
    ∧ (containsSub note "cloud region" = true ↔ ty ≠ CdnType.cdn) := by
  unfold detectCdn at hty hnote
  cases h1 : asnTier asn with
  | some e =>
    rw [h1] at hty hnote
    simp only [foundInfo, Option.some.injEq] at hty hnote
    subst hty
    subst hnote
    cases e.2 <;> exact ⟨by decide, by decide⟩
  | none =>
    rw [h1] at hty hnote
    cases h2 : hostnameTier hostname with
    | some e =>
      rw [h2] at hty hnote
      simp only [foundInfo, Option.some.injEq] at hty hnote
      subst hty
      subst hnote
      cases e.2 <;> exact ⟨by decide, by decide⟩
    | none =>
      rw [h2] at hty hnote
      cases h3 : ipTier ip with
      | some e =>
        rw [h3] at hty hnote
        simp only [foundInfo, Option.some.injEq] at hty hnote
        subst hty
        subst hnote
        cases e.2 <;> exact ⟨by decide, by decide⟩
      | none =>
        rw [h3] at hty hnote
        exact absurd hty (by simp)

/-- Witness for the amended C9 at the `hosting` entry ASN 209366 (Vercel). -/
theorem detectCdn_note_wording_witness :
    (containsSub "Detected by ASN. Location shows cloud region, not origin." "edge server" = true
      ↔ CdnType.hosting = CdnType.cdn)
    ∧ (containsSub "Detected by ASN. Location shows cloud region, not origin." "cloud region" = true
      ↔ CdnType.hosting ≠ CdnType.cdn) :=
  detectCdn_note_wording "1.2.3.4" (some 209366) none CdnType.hosting
    "Detected by ASN. Location shows cloud region, not origin." (by decide) (by decide)

theorem poolInv_init {α R : Type} (items : List α) (fn : α → R) (w : Nat) :
    PoolInv items fn (initPool R items.length w) := by
  constructor
  · simp [initPool]
  · simp [initPool]
  · intro i v hv
    rw [List.get?_eq_getElem?] at hv
    simp only [initPool, List.getElem?_replicate] at hv
    split at hv
    · cases hv
    · cases hv
  · intro i hi
    simp [initPool] at hi
  · intro w' i h
    rw [List.get?_eq_getElem?] at h
    simp only [initPool, List.getElem?_replicate] at h
    split at h
    · cases h
    · cases h
  · rintro ⟨w', h⟩
    rw [List.get?_eq_getElem?] at h
    simp only [initPool, List.getElem?_replicate] at h
    split at h
    · cases h
    · cases h

theorem poolInv_step {α R : Type} {items : List α} {fn : α → R} {s t : PoolState R}
    (hstep : PoolStep items fn s t) (hinv : PoolInv items fn s) : PoolInv items fn t := by
  cases hstep with
  | claim w hw hnext =>
    constructor
    · exact hinv.res_length
    · exact hnext
    · exact hinv.res_correct
    · intro i hi
      rcases Nat.lt_succ_iff_lt_or_eq.mp hi with hi' | rfl
      · rcases hinv.claimed i hi' with hfill | ⟨w', hw'⟩
        · exact Or.inl hfill
        · right
          by_cases hww : w = w'
          · subst hww
            rw [hw] at hw'
            cases hw'
          · exact ⟨w', by rw [List.get?_set_ne _ _ hww]; exact hw'⟩
      · right
        refine ⟨w, ?_⟩
        rw [List.get?_set_eq, hw]
        rfl
    · intro w' i h
      by_cases hww : w = w'
      · subst hww
        rw [List.get?_set_eq, hw] at h
        cases h
        exact Nat.lt_succ_self _
      · rw [List.get?_set_ne _ _ hww] at h
        exact Nat.lt_succ_of_lt (hinv.computing_lt w' i h)
    · rintro ⟨w', h⟩
      by_cases hww : w = w'
      · subst hww
        rw [List.get?_set_eq, hw] at h
        cases h
      · rw [List.get?_set_ne _ _ hww] at h
        exact Nat.le_succ_of_le (hinv.done_next ⟨w', h⟩)
  | finish w i hw =>
    have hin : i < s.next := hinv.computing_lt w i hw
    have hiN : i < items.length := lt_of_lt_of_le hin hinv.next_le
    have hires : i < s.res.length := by rw [hinv.res_length]; exact hiN
    constructor
    · rw [List.length_set]; exact hinv.res_length
    · exact hinv.next_le
    · intro j v hj
      by_cases hij : i = j
      · subst hij
        rw [List.get?_set_eq] at hj
        rcases Option.map_eq_some'.mp hj with ⟨old, _, hv⟩
        exact hv
      · rw [List.get?_set_ne _ _ hij] at hj
        exact hinv.res_correct j v hj
    · intro j hj
      rcases hinv.claimed j hj with ⟨v, hv⟩ | ⟨w', hw'⟩
      · left
        by_cases hij : i = j
        · subst hij
          refine ⟨fn (items.get ⟨i, hiN⟩), ?_⟩
          rw [List.get?_set_eq, hv, List.get?_eq_get hiN]
          rfl
        · exact ⟨v, by rw [List.get?_set_ne _ _ hij]; exact hv⟩
      · by_cases hww : w = w'
        · subst hww
          rw [hw] at hw'
          cases hw'
          left
          refine ⟨fn (items.get ⟨i, hiN⟩), ?_⟩
          rw [List.get?_set_eq, List.get?_eq_get hires, List.get?_eq_get hiN]
          rfl
        · right
          exact ⟨w', by rw [List.get?_set_ne _ _ hww]; exact hw'⟩
    · intro w' j h
      by_cases hww : w = w'
      · subst hww
        rw [List.get?_set_eq, hw] at h
        cases h
      · rw [List.get?_set_ne _ _ hww] at h
        exact hinv.computing_lt w' j h
    · rintro ⟨w', h⟩
      by_cases hww : w = w'
      · subst hww
        rw [List.get?_set_eq, hw] at h
        cases h
      · rw [List.get?_set_ne _ _ hww] at h
        exact hinv.done_next ⟨w', h⟩
  | exit w hw hnext =>
    constructor
    · exact hinv.res_length
    · exact hinv.next_le
    · exact hinv.res_correct
    · intro i hi
      rcases hinv.claimed i hi with hfill | ⟨w', hw'⟩
      · exact Or.inl hfill
      · right
        by_cases hww : w = w'
        · subst hww
          rw [hw] at hw'
          cases hw'
        · exact ⟨w', by rw [List.get?_set_ne _ _ hww]; exact hw'⟩
    · intro w' i h
      by_cases hww : w = w'
      · subst hww
        rw [List.get?_set_eq, hw] at h
        cases h
      · rw [List.get?_set_ne _ _ hww] at h
        exact hinv.computing_lt w' i h
    · intro _
      exact hnext

theorem poolStep_workers_length {α R : Type} {items : List α} {fn : α → R}
    {s t : PoolState R} (hstep : PoolStep items fn s t) :
    t.workers.length = s.workers.length := by
  cases hstep <;> simp

theorem poolReach_inv {α R : Type} {items : List α} {fn : α → R} {w : Nat} {s : PoolState R}
    (h : Relation.ReflTransGen (PoolStep items fn) (initPool R items.length w) s) :
    PoolInv items fn s := by
  induction h with
  | refl => exact poolInv_init items fn w
  | tail _ hstep ih => exact poolInv_step hstep ih

theorem poolReach_workers_length {α R : Type} {items : List α} {fn : α → R} {w : Nat}
    {s : PoolState R}
    (h : Relation.ReflTransGen (PoolStep items fn) (initPool R items.length w) s) :
    s.workers.length = w := by
  induction h with
  | refl => simp [initPool]
  | tail _ hstep ih => rw [poolStep_workers_length hstep]; exact ih

/-- Partial correctness of the worker pool: with at least one worker, every
terminal buffer holds exactly `fn items[i]` at every index `i`, whatever the
interleaving. -/
theorem poolRun_eq_map {α R : Type} {items : List α} {fn : α → R} {conc : Nat}
    {out : List (Option R)} (hc : 1 ≤ conc) (h : PoolRun items fn conc out) :
    out = items.map (fun a => some (fn a)) := by
  obtain ⟨s, hreach, hterm, rfl⟩ := h
  have hinv := poolReach_inv hreach
  by_cases hnil : items = []
  · subst hnil
    have : s.res.length = 0 := hinv.res_length
    rw [List.length_eq_zero.mp this]
    rfl
  · have hwlen : s.workers.length = min conc items.length := poolReach_workers_length hreach
    have hpos : 0 < s.workers.length := by
      rw [hwlen]
      exact lt_min hc (List.length_pos.mpr hnil)
    have h0 : s.workers.get? 0 = some (s.workers.get ⟨0, hpos⟩) := List.get?_eq_get hpos
    have hdone : s.workers.get ⟨0, hpos⟩ = WStatus.done :=
      hterm _ (List.get?_mem h0)
    have hN : items.length ≤ s.next := hinv.done_next ⟨0, by rw [h0, hdone]⟩
    apply List.ext_get?
    intro n
    by_cases hn : n < items.length
    · rcases hinv.claimed n (lt_of_lt_of_le hn hN) with ⟨v, hv⟩ | ⟨w', hw'⟩
      · have hcorr := hinv.res_correct n v hv
        rcases Option.map_eq_some'.mp hcorr with ⟨a, ha, rfl⟩
        rw [hv, List.get?_map, ha]
        rfl
      · have hmem := List.get?_mem hw'
        exact absurd (hterm _ hmem) (by simp)
    · rw [List.get?_eq_none.mpr, List.get?_eq_none.mpr]
      · simp
        omega
      · rw [hinv.res_length]
        omega

/-! ### Shape lemmas for provider results -/

/-- Every result of the local provider carries no classification, names the
`local` provider, echoes the queried IP, and on error carries neither network
data nor geo fields beyond the IP echo. -/
theorem localLookup_shape (db : LocalDb) (ip : String) :
    (localLookup db ip).cdn = none
    ∧ (localLookup db ip).provider = ProviderType.«local»
    ∧ ((localLookup db ip).error.isSome →
        (localLookup db ip).network = none
        ∧ (localLookup db ip).geo = { ip := (localLookup db ip).geo.ip }) := by
  unfold localLookup localErrorResult
  repeat' split
  all_goals exact ⟨rfl, rfl, fun h => by first | exact ⟨rfl, rfl⟩ | simp at h⟩

/-- Every result of the ipinfo retry loop carries no classification, names the
`ipinfo` provider, echoes the queried IP as `input`, and on error carries
neither network data nor geo fields beyond the IP echo. -/
theorem ipinfoAttemptLoop_shape (fetch : Nat → FetchOutcome) (ip : String) :
    ∀ fuel attempt lastError sleeps,
    ((ipinfoAttemptLoop fetch ip fuel attempt lastError sleeps).result.cdn = none
    ∧ (ipinfoAttemptLoop fetch ip fuel attempt lastError sleeps).result.provider =
        ProviderType.ipinfo
    ∧ (ipinfoAttemptLoop fetch ip fuel attempt lastError sleeps).result.input = ip)
    ∧ ((ipinfoAttemptLoop fetch ip fuel attempt lastError sleeps).result.error.isSome →
        (ipinfoAttemptLoop fetch ip fuel attempt lastError sleeps).result.network = none
        ∧ (ipinfoAttemptLoop fetch ip fuel attempt lastError sleeps).result.geo =
          { ip := (ipinfoAttemptLoop fetch ip fuel attempt lastError sleeps).result.geo.ip }) := by
  intro fuel
  induction fuel with
  | zero =>
    intro attempt lastError sleeps
    exact ⟨⟨rfl, rfl, rfl⟩, fun _ => ⟨rfl, rfl⟩⟩
  | succ n ih =>
    intro attempt lastError sleeps
    show _ ∧ _
    unfold ipinfoAttemptLoop
    cases hf : fetch attempt with
    | ok body =>
      exact ⟨⟨rfl, rfl, rfl⟩, by intro h; cases h⟩
    | httpError status statusText =>
      dsimp only
      split
      · exact ⟨⟨rfl, rfl, rfl⟩, fun _ => ⟨rfl, rfl⟩⟩
      · split
        · exact ih (attempt + 1) _ _
        · exact ⟨⟨rfl, rfl, rfl⟩, fun _ => ⟨rfl, rfl⟩⟩
    | netError message isTimeout =>
      dsimp only
      split
      · exact ih (attempt + 1) _ _
      · exact ⟨⟨rfl, rfl, rfl⟩, fun _ => ⟨rfl, rfl⟩⟩

/-- Every provider-selection result has no classification attached yet, echoes
the original input, names a concrete provider (`local` or `ipinfo`, never
`auto`), and on error carries neither network data nor geo fields beyond the
IP echo. -/
theorem providerResult_shape (env : Env) (input ip : String) (options : LookupOptions) :
    (providerResult env input ip options).cdn = none
    ∧ (providerResult env input ip options).input = input
    ∧ ((providerResult env input ip options).provider = ProviderType.«local»
      ∨ (providerResult env input ip options).provider = ProviderType.ipinfo)
    ∧ ((providerResult env input ip options).error.isSome →
        (providerResult env input ip options).network = none
        ∧ (providerResult env input ip options).geo =
          { ip := (providerResult env input ip options).geo.ip }) := by
  have hl := localLookup_shape env.localDb ip
  have hi := ipinfoAttemptLoop_shape (env.fetch ip) ip (MAX_RETRIES + 1) 0 none []
  unfold providerResult
  cases options.provider with
  | auto =>
    dsimp only
    split
    · split
      · exact ⟨hl.1, rfl, Or.inl hl.2.1, fun h => hl.2.2 h⟩
      · exact ⟨hi.1.1, rfl, Or.inr hi.1.2.1, fun h => hi.2 h⟩
    · exact ⟨hi.1.1, rfl, Or.inr hi.1.2.1, fun h => hi.2 h⟩
  | «local» => exact ⟨hl.1, rfl, Or.inl hl.2.1, fun h => hl.2.2 h⟩
  | ipinfo => exact ⟨hi.1.1, rfl, Or.inr hi.1.2.1, fun h => hi.2 h⟩

/-- Attaching (or not attaching) the classification changes no field other
than `cdn`. -/
theorem attachCdn_fields (env : Env) (input : String) (r : GeoResult) :
    (attachCdn env input r).error = r.error
    ∧ (attachCdn env input r).network = r.network
    ∧ (attachCdn env input r).geo = r.geo
    ∧ (attachCdn env input r).ip = r.ip
    ∧ (attachCdn env input r).input = r.input
    ∧ (attachCdn env input r).provider = r.provider := by
  unfold attachCdn
  split
  · dsimp only
    repeat' split
    all_goals exact ⟨rfl, rfl, rfl, rfl, rfl, rfl⟩
  · exact ⟨rfl, rfl, rfl, rfl, rfl, rfl⟩

/-- On an errored provider result the classification block is skipped. -/
theorem attachCdn_cdn_of_error (env : Env) (input : String) (r : GeoResult)
    (h : r.error ≠ none) : (attachCdn env input r).cdn = r.cdn := by
  unfold attachCdn
  rw [if_neg h]

/-- On a successful provider result the classification is attached exactly
when `isCdn` fired. -/
theorem attachCdn_cdn_of_ok (env : Env) (input : String) (r : GeoResult)
    (h : r.error = none) :
    (attachCdn env input r).cdn =
      (if (detectCdn r.ip (r.network.bind NetworkInfo.asn)
            (if env.isIp input then none else some input)).isCdn then
        some (detectCdn r.ip (r.network.bind NetworkInfo.asn)
          (if env.isIp input then none else some input))
      else r.cdn) := by
  unfold attachCdn
  rw [if_pos h]
  dsimp only
  repeat' split
  all_goals rfl

/-- The final record's `input` field always equals the original caller-supplied
string. -/
theorem lookup_input (env : Env) (input : String) (options : LookupOptions) :
    (lookup env input options).input = input := by
  unfold lookup
  dsimp only
  split
  · rfl
  · rw [(attachCdn_fields env input _).2.2.2.2.1]
    exact (providerResult_shape env input (resolveToIp env input).1 options).2.1

/-! ### Claim C2: the error invariant of `lookup` -/

/-- C2.  For every single lookup: when `error` is set, the result carries no
network data, no classification, and no geo fields beyond the (possibly empty)
IP echo — an errored result is never partially valid, and classification is
never run on it.  When the lookup succeeds, the `cdn` field is present exactly
when `detectCdn` fired (`isCdn = true`) on the resolved IP, the result's ASN
and the original input as hostname (the latter only when the input was not a
literal IP); a non-CDN classification leaves the field absent entirely rather
than present with `isCdn = false`. -/
theorem lookup_error_invariant (env : Env) (input : String) (options : LookupOptions) :
    ((lookup env input options).error.isSome →
      (lookup env input options).network = none
      ∧ (lookup env input options).cdn = none
      ∧ (lookup env input options).geo = { ip := (lookup env input options).geo.ip })
    ∧ ((lookup env input options).error = none →
      (match (lookup env input options).cdn with
        | some c =>
          c = detectCdn (lookup env input options).ip
              ((lookup env input options).network.bind NetworkInfo.asn)
              (if env.isIp input then none else some input)
          ∧ c.isCdn = true
        | none =>
          (detectCdn (lookup env input options).ip
            ((lookup env input options).network.bind NetworkInfo.asn)
            (if env.isIp input then none else some input)).isCdn = false)) := by
  have hshape := providerResult_shape env input (resolveToIp env input).1 options
  have hfields := attachCdn_fields env input (providerResult env input (resolveToIp env input).1 options)
  unfold lookup
  dsimp only
  split
  · exact ⟨fun _ => ⟨rfl, rfl, rfl⟩, fun h => by cases h⟩
  · constructor
    · intro h
      rw [hfields.1] at h
      have herrne : (providerResult env input (resolveToIp env input).1 options).error ≠ none := by
        intro hn
        rw [hn] at h
        cases h
      refine ⟨?_, ?_, ?_⟩
      · rw [hfields.2.1]
        exact (hshape.2.2.2 h).1
      · rw [attachCdn_cdn_of_error env input _ herrne]
        exact hshape.1
      · rw [hfields.2.2.1]
        exact (hshape.2.2.2 h).2
    · intro h
      rw [hfields.1] at h
      rw [attachCdn_cdn_of_ok env input _ h, hshape.1, hfields.2.2.2.1, hfields.2.1]
      cases hfired : (detectCdn (providerResult env input (resolveToIp env input).1 options).ip
          ((providerResult env input (resolveToIp env input).1 options).network.bind
            NetworkInfo.asn)
          (if env.isIp input = true then none else some input)).isCdn with
      | false => simp
      | true => exact ⟨rfl, hfired⟩

/-- Witness for C2 at a DNS-failure input: the errored result carries neither
network nor classification nor geo data. -/
theorem lookup_error_invariant_witness :
    (lookup dnsFailEnv "nonexistent.invalid" { provider := .auto }).network = none
    ∧ (lookup dnsFailEnv "nonexistent.invalid" { provider := .auto }).cdn = none
    ∧ (lookup dnsFailEnv "nonexistent.invalid" { provider := .auto }).geo =
        { ip := (lookup dnsFailEnv "nonexistent.invalid" { provider := .auto }).geo.ip } :=
  (lookup_error_invariant dnsFailEnv "nonexistent.invalid" { provider := .auto }).1 (by decide)

/-! ### Claim C5: A-record first, AAAA only on a thrown failure -/

/-- C5 (against the claim and the repository's own `AAAA-only domains` test):
when `resolve4` succeeds with an *empty* address list, the code falls through
to the failure return without ever consulting `resolve6` — the `catch` block
holding the AAAA attempt only runs when `resolve4` throws.  With AAAA data
available, the lookup nevertheless fails naming the unresolved input. -/
theorem resolveToIp_empty_a_skips_aaaa :
    resolveToIp aaaaOnlyEnv "ipv6only.example.com" =
      ("", some "Could not resolve: ipv6only.example.com")
    ∧ (lookup aaaaOnlyEnv "ipv6only.example.com" { provider := .ipinfo }).error =
        some "Could not resolve: ipv6only.example.com"
    ∧ (lookup aaaaOnlyEnv "ipv6only.example.com" { provider := .ipinfo }).ip = "" :=
  ⟨by decide, by decide, by decide⟩

/-! ### Claim C10: only the first resolved address is used -/

/-- C10.  When A-record resolution returns a non-empty list, the first address
is the resolved IP (and no error); likewise for the first AAAA address when
`resolve4` throws.  The trailing addresses `rest` are universally quantified
and absent from the conclusion, so they never influence the result. -/
theorem resolveToIp_first_address (env : Env) (input a : String) (rest : List String) :
    (env.isIp input = false → env.resolve4 input = .ok (a :: rest) →
      resolveToIp env input = (a, none))
    ∧ (env.isIp input = false → env.resolve4 input = .error () →
      env.resolve6 input = .ok (a :: rest) →
      resolveToIp env input = (a, none)) := by
  constructor
  · intro h1 h2
    simp [resolveToIp, h1, h2]
  · intro h1 h2 h3
    simp [resolveToIp, h1, h2, h3]

/-- Witness for C10: of the two resolved addresses only the first is used. -/
theorem resolveToIp_first_address_witness :
    resolveToIp multiAEnv "google.com" = ("8.8.8.8", none) :=
  (resolveToIp_first_address multiAEnv "google.com" "8.8.8.8" ["9.9.9.9"]).1 rfl rfl

/-! ### Claim C6: the `provider` field of a result -/

/-- C6 counterexample: a lookup that fails at address resolution with the
`auto` strategy configured stamps the literal `auto` on the result's
`provider` field (`lookup.ts` line 61: `provider: options.provider`), so the
claim that no returned result ever carries `auto` is false. -/
theorem lookup_auto_stamped_cex :
    (lookup dnsFailEnv "nonexistent.invalid" { provider := .auto }).provider =
      ProviderType.auto
    ∧ (lookup dnsFailEnv "nonexistent.invalid" { provider := .auto }).error.isSome = true :=
  ⟨by decide, by decide⟩

/-- C6 amended.  Whenever address resolution succeeds (so a provider actually
serves the lookup), the result's `provider` field is a concrete provider —
`local` or `ipinfo`, never `auto`; on a resolution failure the result instead
echoes the configured provider, which may be `auto`. -/
theorem lookup_provider_concrete (env : Env) (input : String) (options : LookupOptions) :
    ((jsTruthyStr (resolveToIp env input).2 || ((resolveToIp env input).1 == "")) = false →
      (lookup env input options).provider = ProviderType.«local»
      ∨ (lookup env input options).provider = ProviderType.ipinfo)
    ∧ ((jsTruthyStr (resolveToIp env input).2 || ((resolveToIp env input).1 == "")) = true →
      (lookup env input options).provider = options.provider) := by
  constructor
  · intro h
    unfold lookup
    dsimp only
    rw [h, if_neg (by simp)]
    rw [(attachCdn_fields env input _).2.2.2.2.2]
    exact (providerResult_shape env input (resolveToIp env input).1 options).2.2.1
  · intro h
    unfold lookup
    dsimp only
    rw [h, if_pos rfl]

/-- Witness for the amended C6: a successful `auto` lookup (local database
absent, remote 404 — still a *served* result) carries a concrete provider. -/
theorem lookup_provider_concrete_witness :
    (lookup okIpEnv "8.8.8.8" { provider := .auto }).provider = ProviderType.«local»
    ∨ (lookup okIpEnv "8.8.8.8" { provider := .auto }).provider = ProviderType.ipinfo :=
  (lookup_provider_concrete okIpEnv "8.8.8.8" { provider := .auto }).1 (by decide)

/-- C3 (amended with `1 ≤ effectiveConcurrency options`; see the
counterexample for concurrency `0`).  Every possible result array of
`lookupBatch` over `N` inputs has exactly length `N`, holds at index `i` the
single-lookup result of `inputs[i]` whose `input` field equals `inputs[i]`,
for all `i` — for every environment, every schedule of the worker pool
(completion order), and every configuration whose effective concurrency is at
least 1. -/
theorem lookupBatch_index_stable (env : Env) (inputs : List String) (options : LookupOptions)
    (out : List (Option GeoResult)) (hc : 1 ≤ effectiveConcurrency options)
    (hrun : LookupBatchRun env inputs options out) :
    out.length = inputs.length
    ∧ ∀ i (hi : i < inputs.length),
        out.get? i = some (some (lookup env (inputs.get ⟨i, hi⟩) options))
        ∧ (lookup env (inputs.get ⟨i, hi⟩) options).input = inputs.get ⟨i, hi⟩ := by
  have hmap := poolRun_eq_map hc hrun
  subst hmap
  constructor
  · simp
  · intro i hi
    refine ⟨?_, lookup_input env _ options⟩
    rw [List.get?_map, List.get?_eq_get hi]
    rfl

/-- C3 counterexample.  With `concurrency = 0` (a configuration the claim
quantifies over), `Math.min(0, 1) = 0` workers are started, `Promise.all([])`
resolves immediately, and `lookupBatch` returns the pre-sized array still
holding a hole at index 0 — not the lookup result of `inputs[0]`. -/
theorem lookupBatch_zero_concurrency_cex :
    LookupBatchRun dnsFailEnv ["8.8.8.8"] zeroConcOptions [none]
    ∧ ([none].get? 0 ≠
        some (some (lookup dnsFailEnv "8.8.8.8" zeroConcOptions))) := by
  constructor
  · refine ⟨initPool GeoResult 1 (min (effectiveConcurrency zeroConcOptions) 1),
      .refl, ?_, rfl⟩
    intro st hst
    simp [initPool, effectiveConcurrency, zeroConcOptions] at hst
  · simp

/-- C4 (the code violates the claim).  `lookupBatch` performs no validation of
the concurrency option: with `concurrency = 0` the initial pool state — zero
workers started, no lookup attempted — is already terminal, and the call
returns an array of unfilled slots instead of rejecting the invalid input. -/
theorem lookupBatch_zero_concurrency_no_reject :
    effectiveConcurrency zeroConcOptions = 0
    ∧ PoolTerminal (initPool GeoResult 1 (min (effectiveConcurrency zeroConcOptions) 1))
    ∧ LookupBatchRun dnsFailEnv ["8.8.8.8"] zeroConcOptions [none] := by
  refine ⟨rfl, ?_, ?_⟩
  · intro st hst
    simp [initPool, effectiveConcurrency, zeroConcOptions] at hst
  · refine ⟨initPool GeoResult 1 (min (effectiveConcurrency zeroConcOptions) 1),
      .refl, ?_, rfl⟩
    intro st hst
    simp [initPool, effectiveConcurrency, zeroConcOptions] at hst

/-- Witness for C3: a singleton batch with the default concurrency (10), run
by one worker through claim, write-back and exit. -/
theorem lookupBatch_index_stable_witness :
    ([some wResult].get? 0 = some (some (lookup dnsFailEnv "8.8.8.8" wOpts)))
    ∧ (lookup dnsFailEnv "8.8.8.8" wOpts).input = "8.8.8.8" := by
  have hrun : LookupBatchRun dnsFailEnv ["8.8.8.8"] wOpts [some wResult] := by
    refine ⟨{ next := 1, res := [some wResult], workers := [.done], completed := 1 }, ?_, ?_, rfl⟩
    · have s0 : Relation.ReflTransGen
          (PoolStep ["8.8.8.8"] (fun input => lookup dnsFailEnv input wOpts))
          (initPool GeoResult 1 (min (effectiveConcurrency wOpts) 1))
          { next := 1, res := [none], workers := [.computing 0], completed := 0 } :=
        Relation.ReflTransGen.single (PoolStep.claim _ 0 rfl (by decide))
      have s1 := Relation.ReflTransGen.tail s0 (PoolStep.finish _ 0 0 rfl)
      have s2 := Relation.ReflTransGen.tail s1 (PoolStep.exit _ 0 rfl (by decide))
      exact s2
    · intro st hst
      simp at hst
      subst hst
      rfl
  have h := lookupBatch_index_stable dnsFailEnv ["8.8.8.8"] wOpts [some wResult]
    (by decide) hrun
  exact ⟨(h.2 0 (by decide)).1, (h.2 0 (by decide)).2⟩

/-- A retryable outcome below the retry limit makes the loop sleep
`RETRY_DELAY_MS * (attempt + 1)` and move to the next attempt with the
recorded error as `lastError`. -/
theorem ipinfoAttemptLoop_retry_step (fetch : Nat → FetchOutcome) (ip : String)
    (fuel attempt : Nat) (lastError : Option String) (sleeps : List Nat)
    (hlt : attempt < MAX_RETRIES) (hr : retryableOutcome (fetch attempt) = true) :
    ipinfoAttemptLoop fetch ip (fuel + 1) attempt lastError sleeps =
      ipinfoAttemptLoop fetch ip fuel (attempt + 1) (some (recordedError (fetch attempt)))
        ((RETRY_DELAY_MS * (attempt + 1)) :: sleeps) := by
  conv_lhs => unfold ipinfoAttemptLoop
  cases hf : fetch attempt with
  | ok body =>
    rw [hf] at hr
    cases hr
  | httpError status statusText =>
    rw [hf] at hr
    have h5 : 500 ≤ status := by simpa [retryableOutcome] using hr
    have h429 : ¬(status = 429) := by omega
    dsimp only
    rw [if_neg h429, if_pos ⟨h5, hlt⟩]
    rfl
  | netError message isTimeout =>
    dsimp only
    rw [if_pos hlt]
    rfl

/-- At the final attempt (`attempt = MAX_RETRIES`), whatever the outcome, the
loop returns with `MAX_RETRIES + 1` fetches used and the accumulated sleeps. -/
theorem ipinfoAttemptLoop_last_attempt (fetch : Nat → FetchOutcome) (ip : String)
    (lastError : Option String) (sleeps : List Nat) :
    (ipinfoAttemptLoop fetch ip 1 2 lastError sleeps).attemptsUsed = 3
    ∧ (ipinfoAttemptLoop fetch ip 1 2 lastError sleeps).sleeps = sleeps.reverse := by
  unfold ipinfoAttemptLoop
  cases hf : fetch 2 with
  | ok body => exact ⟨rfl, rfl⟩
  | httpError status statusText =>
    dsimp only
    split
    · exact ⟨rfl, rfl⟩
    · rw [if_neg (fun h => absurd h.2 (by decide))]
      exact ⟨rfl, rfl⟩
  | netError message isTimeout =>
    dsimp only
    rw [if_neg (by decide)]
    exact ⟨rfl, rfl⟩

/-- A non-retryable outcome at attempt 1 ends the loop with 2 fetches used. -/
theorem ipinfoAttemptLoop_attempt1_stop (fetch : Nat → FetchOutcome) (ip : String)
    (lastError : Option String) (sleeps : List Nat)
    (hr : retryableOutcome (fetch 1) = false) :
    (ipinfoAttemptLoop fetch ip 2 1 lastError sleeps).attemptsUsed = 2
    ∧ (ipinfoAttemptLoop fetch ip 2 1 lastError sleeps).sleeps = sleeps.reverse := by
  unfold ipinfoAttemptLoop
  cases hf : fetch 1 with
  | ok body => exact ⟨rfl, rfl⟩
  | httpError status statusText =>
    rw [hf] at hr
    have h5 : ¬(500 ≤ status) := by simpa [retryableOutcome] using hr
    dsimp only
    split
    · exact ⟨rfl, rfl⟩
    · rw [if_neg (by intro h; exact absurd h.1 h5)]
      exact ⟨rfl, rfl⟩
  | netError message isTimeout =>
    rw [hf] at hr
    cases hr

/-- C7 counterexample.  When all three attempts fail with network errors, the
final error reports the *second-to-last* attempt's message (`lastError`, which
the exhausted final attempt never updates), not the last encountered error:
`error 1` is reported although the last encountered failure was `error 2`. -/
theorem ipinfo_last_error_cex :
    (ipinfoLookup netFailFetch "8.8.8.8").result.error =
      some "Request failed: network error 1"
    ∧ (ipinfoLookup netFailFetch "8.8.8.8").result.error ≠
        some "Request failed: network error 2"
    ∧ (ipinfoLookup netFailFetch "8.8.8.8").attemptsUsed = 3 :=
  ⟨by decide, by decide, by decide⟩

/-- C7 amended.  The remote provider's policy, per attempt outcome: (a) the
per-request timeout is 10s and at most 2 retries follow the first attempt;
(b) HTTP 429 returns immediately — one fetch, no sleep — with the
rate-limit message naming the local provider and the API token; (c) any other
non-5xx, non-2xx status returns immediately with the status as the error;
(d) a retryable first outcome (5xx or network/timeout error) causes a second
fetch after a 1000ms sleep; (e) two retryable outcomes exhaust all 3 attempts
with linearly increasing backoff `[1000, 2000]`; (f) a final-attempt 5xx
yields that (last) status error; (g) a final-attempt network error yields
`Request failed:` with the *previous* attempt's recorded error (the final
attempt's own message is used only when that record is empty) — not, as the
claim states, the last encountered error. -/
theorem ipinfo_retry_policy (fetch : Nat → FetchOutcome) (ip : String) :
    (TIMEOUT_MS = 10000 ∧ MAX_RETRIES = 2)
    ∧ (∀ st, fetch 0 = .httpError 429 st →
        ipinfoLookup fetch ip =
          { result := ipinfoErrorResult ip
              "Rate limit exceeded. Consider using --provider local or set IPINFO_TOKEN",
            attemptsUsed := 1, sleeps := [] })
    ∧ (∀ s st, fetch 0 = .httpError s st → s ≠ 429 → s < 500 →
        ipinfoLookup fetch ip =
          { result := ipinfoErrorResult ip ("API error: " ++ toString s ++ " " ++ st),
            attemptsUsed := 1, sleeps := [] })
    ∧ (retryableOutcome (fetch 0) = true →
        2 ≤ (ipinfoLookup fetch ip).attemptsUsed
        ∧ (ipinfoLookup fetch ip).sleeps.head? = some (RETRY_DELAY_MS * 1))
    ∧ (retryableOutcome (fetch 0) = true → retryableOutcome (fetch 1) = true →
        (ipinfoLookup fetch ip).attemptsUsed = 3
        ∧ (ipinfoLookup fetch ip).sleeps = [RETRY_DELAY_MS * 1, RETRY_DELAY_MS * 2])
    ∧ (∀ s st, retryableOutcome (fetch 0) = true → retryableOutcome (fetch 1) = true →
        fetch 2 = .httpError s st → 500 ≤ s →
        (ipinfoLookup fetch ip).result.error =
          some ("API error: " ++ toString s ++ " " ++ st))
    ∧ (∀ msg tmo, retryableOutcome (fetch 0) = true → retryableOutcome (fetch 1) = true →
        fetch 2 = .netError msg tmo →
        (ipinfoLookup fetch ip).result.error =
          some ("Request failed: " ++ jsStringOr (some (recordedError (fetch 1))) msg)) := by
  have step0 : ∀ h : retryableOutcome (fetch 0) = true,
      ipinfoLookup fetch ip =
        ipinfoAttemptLoop fetch ip 2 1 (some (recordedError (fetch 0))) [RETRY_DELAY_MS * 1] :=
    fun h => ipinfoAttemptLoop_retry_step fetch ip 2 0 none [] (by decide) h
  have step1 : ∀ _ : retryableOutcome (fetch 0) = true,
      ∀ _ : retryableOutcome (fetch 1) = true,
      ipinfoLookup fetch ip =
        ipinfoAttemptLoop fetch ip 1 2 (some (recordedError (fetch 1)))
          [RETRY_DELAY_MS * 2, RETRY_DELAY_MS * 1] :=
    fun h0 h1 => (step0 h0).trans
      (ipinfoAttemptLoop_retry_step fetch ip 1 1 _ _ (by decide) h1)
  refine ⟨⟨rfl, rfl⟩, ?_, ?_, ?_, ?_, ?_, ?_⟩
  · intro st hf
    unfold ipinfoLookup
    conv_lhs => unfold ipinfoAttemptLoop
    rw [hf]
    dsimp only
    rw [if_pos rfl]
    rfl
  · intro s st hf h429 h500
    unfold ipinfoLookup
    conv_lhs => unfold ipinfoAttemptLoop
    rw [hf]
    dsimp only
    rw [if_neg h429, if_neg (fun h => absurd h.1 (by omega))]
    rfl
  · intro h0
    by_cases h1 : retryableOutcome (fetch 1) = true
    · rw [step1 h0 h1]
      have hlast := ipinfoAttemptLoop_last_attempt fetch ip
        (some (recordedError (fetch 1))) [RETRY_DELAY_MS * 2, RETRY_DELAY_MS * 1]
      rw [hlast.1, hlast.2]
      exact ⟨by omega, rfl⟩
    · rw [step0 h0]
      have hstop := ipinfoAttemptLoop_attempt1_stop fetch ip
        (some (recordedError (fetch 0))) [RETRY_DELAY_MS * 1]
        (by simpa using h1)
      rw [hstop.1, hstop.2]
      exact ⟨by omega, rfl⟩
  · intro h0 h1
    rw [step1 h0 h1]
    have hlast := ipinfoAttemptLoop_last_attempt fetch ip
      (some (recordedError (fetch 1))) [RETRY_DELAY_MS * 2, RETRY_DELAY_MS * 1]
    rw [hlast.1, hlast.2]
    exact ⟨rfl, rfl⟩
  · intro s st h0 h1 hf h500
    rw [step1 h0 h1]
    conv_lhs => unfold ipinfoAttemptLoop
    rw [hf]
    dsimp only
    rw [if_neg (by omega), if_neg (fun h => absurd h.2 (by decide))]
    rfl
  · intro msg tmo h0 h1 hf
    rw [step1 h0 h1]
    conv_lhs => unfold ipinfoAttemptLoop
    rw [hf]
    dsimp only
    rw [if_neg (by decide)]
    rfl

/-- Witness for the amended C7: two retryable failures consume all three
attempts with backoff `[1000, 2000]`. -/
theorem ipinfo_retry_policy_witness :
    (ipinfoLookup retryWitnessFetch "8.8.8.8").attemptsUsed = 3
    ∧ (ipinfoLookup retryWitnessFetch "8.8.8.8").sleeps =
        [RETRY_DELAY_MS * 1, RETRY_DELAY_MS * 2] :=
  (ipinfo_retry_policy retryWitnessFetch "8.8.8.8").2.2.2.2.1 (by decide) (by decide)

/-- C8 counterexample.  An `org` value of `""` is present and not of the form
`AS<digits> <rest>`, yet `if (data.org)` treats the empty string as falsy, so
no `network` record is attached at all — `network.org` does not equal the
whole org string as the claim requires. -/
theorem ipinfo_org_empty_cex :
    (ipinfoLookup emptyOrgFetch "5.5.5.5").result.network = none
    ∧ ¬∃ ni : NetworkInfo,
        (ipinfoLookup emptyOrgFetch "5.5.5.5").result.network = some ni
        ∧ ni.org = some "" := by
  have h : (ipinfoLookup emptyOrgFetch "5.5.5.5").result.network = none := by decide
  refine ⟨h, ?_⟩
  rintro ⟨ni, hni, _⟩
  rw [h] at hni
  cases hni

/-- C8 amended.  For a successful response: when the `org` field matches
`/^AS(\d+)\s+(.*)$/` and the decoded pair is truthy (a non-zero ASN or a
non-empty remainder), `network.asn` is the decoded number and `network.org`
the trailing remainder; when a *non-empty* `org` does not match, the whole
string becomes `network.org` with no ASN; an empty or absent `org` yields no
`network` record at all. -/
theorem ipinfo_org_parsing (fetch : Nat → FetchOutcome) (ip : String) (body : IpinfoBody)
    (hf : fetch 0 = .ok body) :
    (∀ o ds rest, body.org = some o → orgAsnMatch o = some (ds, rest) →
      (digitsToNat ds ≠ 0 ∨ rest ≠ "") →
      (ipinfoLookup fetch ip).result.network =
        some { asn := some (digitsToNat ds), org := some rest })
    ∧ (∀ o, body.org = some o → o ≠ "" → orgAsnMatch o = none →
      (ipinfoLookup fetch ip).result.network = some { asn := none, org := some o })
    ∧ (body.org = none → (ipinfoLookup fetch ip).result.network = none) := by
  have hrun : ipinfoLookup fetch ip =
      { result := ipinfoSuccess ip body, attemptsUsed := 1, sleeps := [] } := by
    unfold ipinfoLookup
    conv_lhs => unfold ipinfoAttemptLoop
    rw [hf]
    rfl
  rw [hrun]
  dsimp only
  refine ⟨?_, ?_, ?_⟩
  · intro o ds rest ho hm htruthy
    have hone : ¬(o = "") := by
      intro hemp
      rw [hemp] at hm
      cases hm
    have hparsed : ipinfoParsedOrg body.org = (some (digitsToNat ds), some rest) := by
      rw [ho]
      unfold ipinfoParsedOrg
      dsimp only
      rw [if_neg hone, hm]
    have htr : ((digitsToNat ds != 0) || (rest != "")) = true := by
      rcases htruthy with h | h <;> simp [h]
    unfold ipinfoSuccess
    dsimp only
    rw [hparsed]
    dsimp only
    rw [if_pos htr]
  · intro o ho hone hm
    have hparsed : ipinfoParsedOrg body.org = (none, some o) := by
      rw [ho]
      unfold ipinfoParsedOrg
      dsimp only
      rw [if_neg hone, hm]
    have htr : ((false : Bool) || (o != "")) = true := by
      simp [hone]
    unfold ipinfoSuccess
    dsimp only
    rw [hparsed]
    dsimp only
    rw [if_pos htr]
  · intro ho
    unfold ipinfoSuccess
    dsimp only
    rw [ho]
    rfl

/-- Witness for the amended C8: `org: "AS15169 Google LLC"` decomposes into
ASN 15169 and organization `Google LLC`. -/
theorem ipinfo_org_parsing_witness :
    (ipinfoLookup googleFetch "8.8.8.8").result.network =
      some { asn := some 15169, org := some "Google LLC" } := by
  have h := (ipinfo_org_parsing googleFetch "8.8.8.8"
      { ip := "8.8.8.8", country := some "US", region := some "California",
        city := some "Mountain View", loc := some "37.4056,-122.0775",
        org := some "AS15169 Google LLC" } rfl).1
    "AS15169 Google LLC" ['1', '5', '1', '6', '9'] "Google LLC" rfl (by decide)
    (Or.inl (by decide))
  exact h.trans (by decide)

end GeoVet
